import Mathlib

/-!
Verification of the VA-CRM backend (students / courses / enrollments /
payments CRUD service) against its natural-language specification.

The route handlers are shallowly embedded: the database is an explicit
record of entity lists, each HTTP handler becomes a function from a
request and a database state to an HTTP status code and a new database
state, and monetary values (JS floats produced by parseFloat) are
modelled as rationals.  Definitions follow the JavaScript source in
src/backend/src/routes (payments.js, enrollments.js, dashboard.js, the
courses and students routers, and the upload router).
-/

/-- Enrollment status enum from the Prisma schema
(ACTIVE / COMPLETED / CANCELLED / SUSPENDED). -/
inductive EnrollmentStatus where
  | ACTIVE
  | COMPLETED
  | CANCELLED
  | SUSPENDED
deriving DecidableEq, Repr

/-- Payment method enum (CASH, BANK_TRANSFER, CREDIT_CARD, DEBIT_CARD,
ONLINE_PAYMENT, CHECK). -/
inductive PaymentMethod where
  | CASH
  | BANK_TRANSFER
  | CREDIT_CARD
  | DEBIT_CARD
  | ONLINE_PAYMENT
  | CHECK
deriving DecidableEq, Repr

/-- Student row: identity, contact info, optional unique national ID. -/
structure Student where
  id : Nat
  name : String
  email : String
  phone : String
  nricPassportId : Option String
deriving DecidableEq, Repr

/-- Course row: name, price, active flag. -/
structure Course where
  id : Nat
  name : String
  price : Rat
  isActive : Bool
deriving DecidableEq, Repr

/-- Enrollment row: links one student to one course and carries a status. -/
structure Enrollment where
  id : Nat
  studentId : Nat
  courseId : Nat
  status : EnrollmentStatus
deriving DecidableEq, Repr

/-- Payment row: amount, method, belonging to one student and one enrollment. -/
structure Payment where
  id : Nat
  studentId : Nat
  enrollmentId : Nat
  amount : Rat
  method : PaymentMethod
deriving DecidableEq, Repr

/-- Database state: the four entity tables. -/
structure DB where
  students : List Student
  courses : List Course
  enrollments : List Enrollment
  payments : List Payment
deriving DecidableEq, Repr

/-- Lookup of a student by primary key (prisma.student.findUnique). -/
def DB.findStudent (db : DB) (id : Nat) : Option Student :=
  db.students.find? (fun s => s.id == id)

/-- Lookup of a course by primary key (prisma.course.findUnique). -/
def DB.findCourse (db : DB) (id : Nat) : Option Course :=
  db.courses.find? (fun c => c.id == id)

/-- Lookup of an enrollment by primary key (prisma.enrollment.findUnique). -/
def DB.findEnrollment (db : DB) (id : Nat) : Option Enrollment :=
  db.enrollments.find? (fun e => e.id == id)

/-- Lookup of a payment by primary key (prisma.payment.findUnique). -/
def DB.findPayment (db : DB) (id : Nat) : Option Payment :=
  db.payments.find? (fun p => p.id == id)

/-- Payments referencing a given enrollment
(prisma.payment.findMany where enrollmentId). -/
def DB.paymentsOfEnrollment (db : DB) (eid : Nat) : List Payment :=
  db.payments.filter (fun p => p.enrollmentId == eid)

/-- Running total of payment amounts, exactly as every call site computes it:
payments.reduce((sum, payment) => sum + parseFloat(payment.amount), 0). -/
def totalPaidOf (payments : List Payment) : Rat :=
  payments.foldl (fun sum p => sum + p.amount) 0

/-- Payment status triple shaped by the route handlers. -/
structure PaymentStatus where
  totalPaid : Rat
  outstanding : Rat
  isFullyPaid : Bool
deriving DecidableEq, Repr

/-- Payment status computed inline in GET /enrollments (enrollments.js,
listing): totalPaid by reduce, outstanding = Math.max(0, coursePrice -
totalPaid), isFullyPaid = outstanding <= 0. -/
def enrollmentListPaymentStatus (coursePrice : Rat) (payments : List Payment) :
    PaymentStatus :=
  let totalPaid := totalPaidOf payments
  let outstanding := max 0 (coursePrice - totalPaid)
  { totalPaid := totalPaid
    outstanding := outstanding
    isFullyPaid := decide (outstanding ≤ 0) }

/-- Payment status computed inline in GET /enrollments/:id (enrollments.js,
detail view); the source duplicates the listing formula verbatim. -/
def enrollmentDetailPaymentStatus (coursePrice : Rat) (payments : List Payment) :
    PaymentStatus :=
  let totalPaid := totalPaidOf payments
  let outstanding := max 0 (coursePrice - totalPaid)
  { totalPaid := totalPaid
    outstanding := outstanding
    isFullyPaid := decide (outstanding ≤ 0) }

/-- One entry of GET /payments/student/:studentId/summary (payments.js):
coursePrice, totalPaid, outstanding and isFullyPaid per enrollment. -/
structure SummaryEntry where
  coursePrice : Rat
  totalPaid : Rat
  outstanding : Rat
  isFullyPaid : Bool
deriving DecidableEq, Repr

/-- Per-enrollment entry built by the student payment summary route
(payments.js, summary map over enrollments). -/
def studentSummaryEntry (coursePrice : Rat) (payments : List Payment) :
    SummaryEntry :=
  let totalPaid := totalPaidOf payments
  let outstanding := max 0 (coursePrice - totalPaid)
  { coursePrice := coursePrice
    totalPaid := totalPaid
    outstanding := outstanding
    isFullyPaid := decide (outstanding ≤ 0) }

/-- Dashboard outstanding aggregation (dashboard.js GET /overview and
GET /payments): reduce over the fetched ACTIVE enrollments, each
represented by its course price paired with its payment list, adding
Math.max(0, coursePrice - totalPaid). -/
def dashboardOutstandingAmount (activeEnrollments : List (Rat × List Payment)) :
    Rat :=
  activeEnrollments.foldl
    (fun total pr => total + max 0 (pr.1 - totalPaidOf pr.2)) 0

theorem totalPaidOf_foldl (l : List Payment) (a : Rat) :
    l.foldl (fun sum p => sum + p.amount) a = a + (l.map Payment.amount).sum := by
  induction l generalizing a with
  | nil => simp
  | cons x xs ih => simp [ih, add_assoc]

theorem totalPaidOf_eq_sum (l : List Payment) :
    totalPaidOf l = (l.map Payment.amount).sum := by
  simpa using totalPaidOf_foldl l 0

theorem dashboardOutstandingAmount_foldl
    (l : List (Rat × List Payment)) (a : Rat) :
    l.foldl (fun total pr => total + max 0 (pr.1 - totalPaidOf pr.2)) a =
      a + (l.map (fun pr => max 0 (pr.1 - (pr.2.map Payment.amount).sum))).sum := by
  induction l generalizing a with
  | nil => simp
  | cons x xs ih =>
    rw [List.foldl_cons, ih]
    simp [totalPaidOf_eq_sum, add_assoc]

theorem dashboardOutstandingAmount_eq_sum (l : List (Rat × List Payment)) :
    dashboardOutstandingAmount l =
      (l.map (fun pr => max 0 (pr.1 - (pr.2.map Payment.amount).sum))).sum := by
  simpa using dashboardOutstandingAmount_foldl l 0

/-- C1: at every balance call site (enrollment listing, enrollment detail,
student payment summary, dashboard outstanding aggregation) the computation
returns totalPaid = Σ amounts, outstanding = max(0, price - totalPaid),
isFullyPaid ↔ outstanding ≤ 0, and outstanding is never negative; the
dashboard aggregate is the sum of the per-enrollment outstandings and is
itself nonnegative. -/
theorem C1_balance_reconciliation (price : Rat) (ps : List Payment)
    (active : List (Rat × List Payment)) :
    (enrollmentListPaymentStatus price ps).totalPaid = (ps.map Payment.amount).sum ∧
    (enrollmentListPaymentStatus price ps).outstanding =
      max 0 (price - (ps.map Payment.amount).sum) ∧
    ((enrollmentListPaymentStatus price ps).isFullyPaid = true ↔
      (enrollmentListPaymentStatus price ps).outstanding ≤ 0) ∧
    0 ≤ (enrollmentListPaymentStatus price ps).outstanding ∧
    (enrollmentDetailPaymentStatus price ps).totalPaid = (ps.map Payment.amount).sum ∧
    (enrollmentDetailPaymentStatus price ps).outstanding =
      max 0 (price - (ps.map Payment.amount).sum) ∧
    ((enrollmentDetailPaymentStatus price ps).isFullyPaid = true ↔
      (enrollmentDetailPaymentStatus price ps).outstanding ≤ 0) ∧
    0 ≤ (enrollmentDetailPaymentStatus price ps).outstanding ∧
    (studentSummaryEntry price ps).totalPaid = (ps.map Payment.amount).sum ∧
    (studentSummaryEntry price ps).outstanding =
      max 0 (price - (ps.map Payment.amount).sum) ∧
    ((studentSummaryEntry price ps).isFullyPaid = true ↔
      (studentSummaryEntry price ps).outstanding ≤ 0) ∧
    0 ≤ (studentSummaryEntry price ps).outstanding ∧
    dashboardOutstandingAmount active =
      (active.map (fun pr => max 0 (pr.1 - (pr.2.map Payment.amount).sum))).sum ∧
    0 ≤ dashboardOutstandingAmount active := by
  refine ⟨?_, ?_, ?_, ?_, ?_, ?_, ?_, ?_, ?_, ?_, ?_, ?_, ?_, ?_⟩
  · simp [enrollmentListPaymentStatus, totalPaidOf_eq_sum]
  · simp [enrollmentListPaymentStatus, totalPaidOf_eq_sum]
  · simp [enrollmentListPaymentStatus]
  · simp [enrollmentListPaymentStatus]
  · simp [enrollmentDetailPaymentStatus, totalPaidOf_eq_sum]
  · simp [enrollmentDetailPaymentStatus, totalPaidOf_eq_sum]
  · simp [enrollmentDetailPaymentStatus]
  · simp [enrollmentDetailPaymentStatus]
  · simp [studentSummaryEntry, totalPaidOf_eq_sum]
  · simp [studentSummaryEntry, totalPaidOf_eq_sum]
  · simp [studentSummaryEntry]
  · simp [studentSummaryEntry]
  · exact dashboardOutstandingAmount_eq_sum active
  · rw [dashboardOutstandingAmount_eq_sum]
    apply List.sum_nonneg
    intro x hx
    simp only [List.mem_map] at hx
    obtain ⟨pr, _, rfl⟩ := hx
    exact le_max_left 0 _

/-- Body of a POST /payments or PUT /payments/:id request after the
express-validator middleware has typed it (studentId and enrollmentId are
required non-empty ids, amount is the parsed float, method the enum). -/
structure PaymentReq where
  studentId : Nat
  enrollmentId : Nat
  amount : Rat
  method : PaymentMethod
deriving DecidableEq, Repr

/-- Read-and-validate phase of POST /payments (payments.js create handler):
validation middleware (amount must be at least 0.01), student lookup,
enrollment lookup, ownership check, ACTIVE check, existing-payments read,
course price read and the exceeds-price check.  On rejection it yields the
HTTP status; on acceptance it yields the totalPaid read and the course
price, the data the write phase uses.  The phase boundary marks the await
points of the handler: the writes run only after all reads. -/
def postPaymentRead (db : DB) (req : PaymentReq) : Except Nat (Rat × Rat) :=
  if req.amount < (1 : Rat) / 100 then .error 400
  else
    match db.findStudent req.studentId with
    | none => .error 400
    | some _ =>
      match db.findEnrollment req.enrollmentId with
      | none => .error 400
      | some enrollment =>
        if enrollment.studentId != req.studentId then .error 400
        else if enrollment.status != .ACTIVE then .error 400
        else
          let totalPaid := totalPaidOf (db.paymentsOfEnrollment req.enrollmentId)
          match db.findCourse enrollment.courseId with
          | none => .error 500
          | some course =>
            if totalPaid + req.amount > course.price then .error 400
            else .ok (totalPaid, course.price)

/-- Write phase of POST /payments: prisma.payment.create, then, when the
new total reaches or exceeds the course price, prisma.enrollment.update
setting the status to COMPLETED.  totalPaid and price are the values read
in the read phase. -/
def postPaymentWrite (db : DB) (req : PaymentReq) (totalPaid price : Rat)
    (newId : Nat) : DB :=
  let db1 : DB :=
    { db with payments := db.payments ++
        [{ id := newId, studentId := req.studentId,
           enrollmentId := req.enrollmentId, amount := req.amount,
           method := req.method }] }
  if totalPaid + req.amount ≥ price then
    { db1 with enrollments := db1.enrollments.map (fun e =>
        if e.id == req.enrollmentId then { e with status := .COMPLETED } else e) }
  else db1

/-- POST /payments handler: read-validate, then write; a rejection returns
the status with the database unchanged, an acceptance returns 201. -/
def postPayment (db : DB) (req : PaymentReq) (newId : Nat) : Nat × DB :=
  match postPaymentRead db req with
  | .error status => (status, db)
  | .ok (totalPaid, price) => (201, postPaymentWrite db req totalPaid price newId)

/-- PUT /payments/:id handler (payments.js update handler): validation,
payment lookup (404 when absent), student and enrollment existence and
ownership checks, then prisma.payment.update.  The source performs no
exceeds-price check on update. -/
def putPayment (db : DB) (id : Nat) (req : PaymentReq) : Nat × DB :=
  if req.amount < (1 : Rat) / 100 then (400, db)
  else
    match db.findPayment id with
    | none => (404, db)
    | some _ =>
      match db.findStudent req.studentId with
      | none => (400, db)
      | some _ =>
        match db.findEnrollment req.enrollmentId with
        | none => (400, db)
        | some enrollment =>
          if enrollment.studentId != req.studentId then (400, db)
          else
            (200, { db with payments := db.payments.map (fun p =>
              if p.id == id then
                { p with studentId := req.studentId,
                         enrollmentId := req.enrollmentId,
                         amount := req.amount, method := req.method }
              else p) })

/-- DELETE /courses/:id handler (courses router): reject with 400 when any
enrollment references the course, 404 when the course is absent, else
delete the row. -/
def deleteCourse (db : DB) (id : Nat) : Nat × DB :=
  let referencing := db.enrollments.filter (fun e => e.courseId == id)
  if referencing.length > 0 then (400, db)
  else
    match db.findCourse id with
    | none => (404, db)
    | some _ => (200, { db with courses := db.courses.filter (fun c => c.id != id) })

/-- DELETE /enrollments/:id handler (enrollments.js): reject with 400 when
any payment references the enrollment, 404 when the enrollment is absent,
else delete the row. -/
def deleteEnrollment (db : DB) (id : Nat) : Nat × DB :=
  let referencing := db.payments.filter (fun p => p.enrollmentId == id)
  if referencing.length > 0 then (400, db)
  else
    match db.findEnrollment id with
    | none => (404, db)
    | some _ =>
      (200, { db with enrollments := db.enrollments.filter (fun e => e.id != id) })

/-- Per-enrollment price cap, the invariant the spec states: the cumulative
payments recorded against each enrollment do not exceed its course price. -/
def DB.paymentInvariant (db : DB) : Bool :=
  db.enrollments.all (fun e =>
    match db.findCourse e.courseId with
    | none => true
    | some c => decide (totalPaidOf (db.paymentsOfEnrollment e.id) ≤ c.price))

theorem totalPaidOf_append (l1 l2 : List Payment) :
    totalPaidOf (l1 ++ l2) = totalPaidOf l1 + totalPaidOf l2 := by
  simp [totalPaidOf_eq_sum]

theorem findEnrollment_update_complete (l : List Enrollment) (eid : Nat)
    (enr : Enrollment) (h : l.find? (fun e => e.id == eid) = some enr) :
    (l.map (fun e =>
        if e.id == eid then { e with status := EnrollmentStatus.COMPLETED } else e)).find?
      (fun e => e.id == eid) =
      some { enr with status := EnrollmentStatus.COMPLETED } := by
  induction l with
  | nil => simp at h
  | cons a l ih =>
    cases ha : (a.id == eid) with
    | true =>
      have hae : a = enr := by
        rw [List.find?_cons] at h
        simp only [ha] at h
        exact Option.some.inj h
      subst hae
      have hb : ((({ a with status := EnrollmentStatus.COMPLETED } : Enrollment)).id ==
          eid) = true := ha
      rw [List.map_cons, if_pos ha, List.find?_cons]
      simp only [hb]
    | false =>
      have hne : ¬ ((a.id == eid) = true) := by simp [ha]
      have h2 : l.find? (fun e => e.id == eid) = some enr := by
        rw [List.find?_cons] at h
        simpa [ha] using h
      rw [List.map_cons, if_neg hne, List.find?_cons]
      simp only [ha]
      exact ih h2

theorem paymentsOfEnrollment_postPaymentWrite (db : DB) (req : PaymentReq)
    (tp price : Rat) (newId : Nat) :
    (postPaymentWrite db req tp price newId).paymentsOfEnrollment req.enrollmentId =
      db.paymentsOfEnrollment req.enrollmentId ++
        [{ id := newId, studentId := req.studentId,
           enrollmentId := req.enrollmentId, amount := req.amount,
           method := req.method }] := by
  unfold postPaymentWrite DB.paymentsOfEnrollment
  split <;> simp [List.filter_append]

theorem paymentsOfEnrollment_postPaymentWrite_ne (db : DB) (req : PaymentReq)
    (tp price : Rat) (newId : Nat) (eid : Nat) (h : eid ≠ req.enrollmentId) :
    (postPaymentWrite db req tp price newId).paymentsOfEnrollment eid =
      db.paymentsOfEnrollment eid := by
  unfold postPaymentWrite DB.paymentsOfEnrollment
  have : (req.enrollmentId == eid) = false := by
    simp [Ne.symm h]
  split <;> simp [List.filter_append, this]

/-- C2: a POST /payments request whose amount would push the enrollment's
total paid strictly above the course price is rejected with HTTP 400 and
the database is unchanged, so no payment row is persisted. -/
theorem C2_exceeds_price_rejected (db : DB) (req : PaymentReq) (newId : Nat)
    (enr : Enrollment) (hfind : db.findEnrollment req.enrollmentId = some enr)
    (c : Course) (hc : db.findCourse enr.courseId = some c)
    (hexceeds : totalPaidOf (db.paymentsOfEnrollment req.enrollmentId) + req.amount >
      c.price) :
    postPayment db req newId = (400, db) := by
  have hread : postPaymentRead db req = Except.error 400 := by
    unfold postPaymentRead
    simp only [hfind, hc]
    split
    · rfl
    · split
      · rfl
      · split
        · rfl
        · split
          · rfl
          · rfl
  simp [postPayment, hread]

/-- C2 witness: course price 1000, one existing payment of 400, request of
700 is rejected with 400 and the state is unchanged. -/
def dbPaid : DB :=
  { students := [{ id := 1, name := "Alice", email := "alice@example.com",
                   phone := "0123456789", nricPassportId := none }]
    courses := [{ id := 1, name := "Web Development", price := 1000,
                  isActive := true }]
    enrollments := [{ id := 1, studentId := 1, courseId := 1, status := .ACTIVE }]
    payments := [{ id := 1, studentId := 1, enrollmentId := 1, amount := 400,
                   method := .CASH }] }

def reqOver : PaymentReq :=
  { studentId := 1, enrollmentId := 1, amount := 700, method := .CASH }

theorem C2_exceeds_price_rejected_witness :
    postPayment dbPaid reqOver 2 = (400, dbPaid) :=
  C2_exceeds_price_rejected dbPaid reqOver 2
    { id := 1, studentId := 1, courseId := 1, status := .ACTIVE } (by decide)
    { id := 1, name := "Web Development", price := 1000, isActive := true } rfl
    (by norm_num [totalPaidOf, DB.paymentsOfEnrollment, dbPaid, reqOver,
      List.filter, List.foldl])

/-- C10: a POST /payments request whose target enrollment exists but is not
ACTIVE (COMPLETED, CANCELLED or SUSPENDED) is rejected with HTTP 400 and
the database is unchanged; in particular a COMPLETED enrollment can never
receive further payments through this endpoint. -/
theorem C10_inactive_enrollment_rejected (db : DB) (req : PaymentReq)
    (newId : Nat) (enr : Enrollment)
    (hfind : db.findEnrollment req.enrollmentId = some enr)
    (hst : enr.status ≠ EnrollmentStatus.ACTIVE) :
    postPayment db req newId = (400, db) := by
  have hbne : (enr.status != EnrollmentStatus.ACTIVE) = true := by
    simp [bne_iff_ne, hst]
  have hread : postPaymentRead db req = Except.error 400 := by
    unfold postPaymentRead
    simp only [hfind]
    split
    · rfl
    · split
      · rfl
      · split
        · rfl
        · rfl
  simp [postPayment, hread]

/-- C10 witness: enrollment already COMPLETED, a further payment of 100 is
rejected with 400 and nothing is persisted. -/
def dbCompleted : DB :=
  { students := [{ id := 1, name := "Alice", email := "alice@example.com",
                   phone := "0123456789", nricPassportId := none }]
    courses := [{ id := 1, name := "Web Development", price := 1000,
                  isActive := true }]
    enrollments := [{ id := 1, studentId := 1, courseId := 1, status := .COMPLETED }]
    payments := [{ id := 1, studentId := 1, enrollmentId := 1, amount := 1000,
                   method := .CASH }] }

def reqAfter : PaymentReq :=
  { studentId := 1, enrollmentId := 1, amount := 100, method := .CASH }

theorem C10_inactive_enrollment_rejected_witness :
    postPayment dbCompleted reqAfter 2 = (400, dbCompleted) :=
  C10_inactive_enrollment_rejected dbCompleted reqAfter 2
    { id := 1, studentId := 1, courseId := 1, status := .COMPLETED }
    (by decide) (by decide)

/-- C3: an accepted POST /payments whose amount brings the total paid to
the course price (reaches or exceeds it while passing the not-above check)
returns 201, transitions the enrollment to COMPLETED as a side effect of
the write, and leaves the enrollment with outstanding 0. -/
theorem C3_completion_on_full_payment (db : DB) (req : PaymentReq) (newId : Nat)
    (st : Student) (hstu : db.findStudent req.studentId = some st)
    (enr : Enrollment) (hfind : db.findEnrollment req.enrollmentId = some enr)
    (c : Course) (hc : db.findCourse enr.courseId = some c)
    (hv : ¬ req.amount < (1 : Rat) / 100)
    (hown : (enr.studentId != req.studentId) = false)
    (hact : (enr.status != EnrollmentStatus.ACTIVE) = false)
    (hle : totalPaidOf (db.paymentsOfEnrollment req.enrollmentId) + req.amount ≤
      c.price)
    (hge : c.price ≤ totalPaidOf (db.paymentsOfEnrollment req.enrollmentId) +
      req.amount) :
    (postPayment db req newId).1 = 201 ∧
    (postPayment db req newId).2.findEnrollment req.enrollmentId =
      some { enr with status := EnrollmentStatus.COMPLETED } ∧
    (enrollmentDetailPaymentStatus c.price
      ((postPayment db req newId).2.paymentsOfEnrollment req.enrollmentId)).outstanding
      = 0 := by
  have hread : postPaymentRead db req =
      Except.ok (totalPaidOf (db.paymentsOfEnrollment req.enrollmentId), c.price) := by
    unfold postPaymentRead
    simp only [hstu, hfind, hc]
    rw [if_neg hv, if_neg (by simp [hown]), if_neg (by simp [hact]),
      if_neg (not_lt.mpr hle)]
  have heq : totalPaidOf (db.paymentsOfEnrollment req.enrollmentId) + req.amount =
      c.price := le_antisymm hle hge
  have hpost : postPayment db req newId =
      (201, postPaymentWrite db req
        (totalPaidOf (db.paymentsOfEnrollment req.enrollmentId)) c.price newId) := by
    simp [postPayment, hread]
  have hwrite : postPaymentWrite db req
      (totalPaidOf (db.paymentsOfEnrollment req.enrollmentId)) c.price newId =
      { db with
        payments := db.payments ++
          [{ id := newId, studentId := req.studentId,
             enrollmentId := req.enrollmentId, amount := req.amount,
             method := req.method }],
        enrollments := db.enrollments.map (fun e =>
          if e.id == req.enrollmentId then { e with status := .COMPLETED } else e) } := by
    unfold postPaymentWrite
    rw [if_pos (le_of_eq heq.symm)]
  refine ⟨by rw [hpost], ?_, ?_⟩
  · rw [hpost]
    simp only [hwrite]
    exact findEnrollment_update_complete db.enrollments req.enrollmentId enr hfind
  · rw [hpost]
    have hps : (postPaymentWrite db req
        (totalPaidOf (db.paymentsOfEnrollment req.enrollmentId)) c.price
        newId).paymentsOfEnrollment req.enrollmentId =
        db.paymentsOfEnrollment req.enrollmentId ++
          [{ id := newId, studentId := req.studentId,
             enrollmentId := req.enrollmentId, amount := req.amount,
             method := req.method }] :=
      paymentsOfEnrollment_postPaymentWrite db req _ c.price newId
    simp only [hps, enrollmentDetailPaymentStatus, totalPaidOf_append]
    have h1 : totalPaidOf
        [{ id := newId, studentId := req.studentId,
           enrollmentId := req.enrollmentId, amount := req.amount,
           method := req.method }] = req.amount := by
      simp [totalPaidOf]
    rw [h1, heq]
    simp

/-- C3 witness: the worked example of the spec, price 1000.00 with payments
of 400.00 then 600.00; the second payment succeeds, the enrollment becomes
COMPLETED and the outstanding amount is 0.00. -/
def reqSecond : PaymentReq :=
  { studentId := 1, enrollmentId := 1, amount := 600, method := .CASH }

theorem C3_completion_on_full_payment_witness :
    (postPayment dbPaid reqSecond 2).1 = 201 ∧
    (postPayment dbPaid reqSecond 2).2.findEnrollment 1 =
      some { id := 1, studentId := 1, courseId := 1,
             status := EnrollmentStatus.COMPLETED } ∧
    (enrollmentDetailPaymentStatus 1000
      ((postPayment dbPaid reqSecond 2).2.paymentsOfEnrollment 1)).outstanding = 0 :=
  C3_completion_on_full_payment dbPaid reqSecond 2
    { id := 1, name := "Alice", email := "alice@example.com",
      phone := "0123456789", nricPassportId := none } (by decide)
    { id := 1, studentId := 1, courseId := 1, status := .ACTIVE } (by decide)
    { id := 1, name := "Web Development", price := 1000, isActive := true } rfl
    (by norm_num [reqSecond])
    (by decide) (by decide)
    (by norm_num [totalPaidOf, DB.paymentsOfEnrollment, dbPaid, reqSecond,
      List.filter, List.foldl])
    (by norm_num [totalPaidOf, DB.paymentsOfEnrollment, dbPaid, reqSecond,
      List.filter, List.foldl])

/-- State model of the race in section 5 of the spec: both concurrent
POST /payments requests perform their read-and-validate phase against the
same initial state (no transaction isolates read from write), then both
write phases run. -/
def raceDb : DB :=
  { students := [{ id := 1, name := "Bob", email := "bob@example.com",
                   phone := "0123456789", nricPassportId := none }]
    courses := [{ id := 1, name := "Data Science", price := 100,
                  isActive := true }]
    enrollments := [{ id := 1, studentId := 1, courseId := 1, status := .ACTIVE }]
    payments := [] }

def raceReq : PaymentReq :=
  { studentId := 1, enrollmentId := 1, amount := 100, method := .CASH }

/-- Final state after the interleaving: read A, read B (both on raceDb),
write A, write B, each write using the totalPaid its own read observed. -/
def raceAfterBoth : DB :=
  postPaymentWrite (postPaymentWrite raceDb raceReq 0 100 101) raceReq 0 100 102

/-- C9: two concurrent POST /payments submissions of 100 against a course
priced 100 both pass the does-not-exceed-price check in their read phase
(both reads see totalPaid 0 on the same state), both payments persist, and
the enrollment ends with total paid 200, strictly above the price, so the
cumulative-payments invariant is violated. -/
theorem C9_concurrent_overshoot :
    postPaymentRead raceDb raceReq = Except.ok (0, 100) ∧
    raceAfterBoth.paymentsOfEnrollment 1 =
      [{ id := 101, studentId := 1, enrollmentId := 1, amount := 100,
         method := .CASH },
       { id := 102, studentId := 1, enrollmentId := 1, amount := 100,
         method := .CASH }] ∧
    totalPaidOf (raceAfterBoth.paymentsOfEnrollment 1) = 200 ∧
    ¬ totalPaidOf (raceAfterBoth.paymentsOfEnrollment 1) ≤ 100 ∧
    raceAfterBoth.paymentInvariant = false := by
  refine ⟨?_, ?_, ?_, ?_, ?_⟩
  · norm_num [postPaymentRead, raceDb, raceReq, DB.findStudent, DB.findEnrollment,
      DB.findCourse, DB.paymentsOfEnrollment, totalPaidOf, List.find?, List.filter,
      List.foldl]
  · norm_num [raceAfterBoth, postPaymentWrite, raceDb, raceReq,
      DB.paymentsOfEnrollment, List.filter]
  · norm_num [raceAfterBoth, postPaymentWrite, raceDb, raceReq,
      DB.paymentsOfEnrollment, totalPaidOf, List.filter, List.foldl]
  · norm_num [raceAfterBoth, postPaymentWrite, raceDb, raceReq,
      DB.paymentsOfEnrollment, totalPaidOf, List.filter, List.foldl]
  · norm_num [raceAfterBoth, postPaymentWrite, raceDb, raceReq,
      DB.paymentInvariant, DB.findCourse, DB.paymentsOfEnrollment, totalPaidOf,
      List.all, List.find?, List.filter, List.foldl]

theorem postPaymentRead_ok_facts (db : DB) (req : PaymentReq) (tp price : Rat)
    (h : postPaymentRead db req = Except.ok (tp, price)) :
    ∃ enr, db.findEnrollment req.enrollmentId = some enr ∧
      ∃ c, db.findCourse enr.courseId = some c ∧
        tp = totalPaidOf (db.paymentsOfEnrollment req.enrollmentId) ∧
        price = c.price ∧
        tp + req.amount ≤ c.price := by
  unfold postPaymentRead at h
  split at h
  · cases h
  · split at h
    · cases h
    · split at h
      · cases h
      · next o enr henr =>
        split at h
        · cases h
        · split at h
          · cases h
          · split at h
            · cases h
            · next o2 c hc =>
              dsimp only [] at h
              split at h
              · cases h
              · next hle =>
                injection h with h2
                rw [Prod.mk.injEq] at h2
                obtain ⟨h4, h5⟩ := h2
                refine ⟨enr, henr, c, hc, h4.symm, h5.symm, ?_⟩
                rw [← h4]
                exact not_lt.mp hle

/-- C5 counterexample state: course priced 100 with a single payment of 50
recorded against its ACTIVE enrollment; the cap invariant holds. -/
def dbHalf : DB :=
  { students := [{ id := 1, name := "Carol", email := "carol@example.com",
                   phone := "0123456789", nricPassportId := none }]
    courses := [{ id := 1, name := "Design", price := 100, isActive := true }]
    enrollments := [{ id := 1, studentId := 1, courseId := 1, status := .ACTIVE }]
    payments := [{ id := 1, studentId := 1, enrollmentId := 1, amount := 50,
                   method := .CASH }] }

def reqRaise : PaymentReq :=
  { studentId := 1, enrollmentId := 1, amount := 200, method := .CASH }

/-- C5 counterexample: the claim says every payment-writing operation,
including PUT /payments/:id, preserves the price cap, but the update
handler performs no exceeds-price check: raising the 50 payment to 200
succeeds (HTTP 200) and leaves the enrollment with total paid 200 against
price 100, breaking the invariant. -/
theorem C5_put_breaks_cap_counterexample :
    dbHalf.paymentInvariant = true ∧
    (putPayment dbHalf 1 reqRaise).1 = 200 ∧
    (putPayment dbHalf 1 reqRaise).2.paymentInvariant = false := by
  refine ⟨?_, ?_, ?_⟩
  · norm_num [DB.paymentInvariant, dbHalf, DB.findCourse, DB.paymentsOfEnrollment,
      totalPaidOf, List.all, List.find?, List.filter, List.foldl]
  · norm_num [putPayment, dbHalf, reqRaise, DB.findPayment, DB.findStudent,
      DB.findEnrollment, List.find?]
  · norm_num [putPayment, dbHalf, reqRaise, DB.findPayment, DB.findStudent,
      DB.findEnrollment, DB.paymentInvariant, DB.findCourse,
      DB.paymentsOfEnrollment, totalPaidOf, List.all, List.find?, List.filter,
      List.foldl, List.map]

theorem totalPaidOf_single (p : Payment) : totalPaidOf [p] = p.amount := by
  simp [totalPaidOf]

theorem postPaymentWrite_courses (db : DB) (req : PaymentReq) (tp price : Rat)
    (n : Nat) : (postPaymentWrite db req tp price n).courses = db.courses := by
  unfold postPaymentWrite
  split <;> rfl

theorem postPaymentWrite_findCourse (db : DB) (req : PaymentReq) (tp price : Rat)
    (n : Nat) (x : Nat) :
    (postPaymentWrite db req tp price n).findCourse x = db.findCourse x := by
  unfold DB.findCourse
  rw [postPaymentWrite_courses]

/-- C5 as amended: payment creation through POST /payments preserves the
per-enrollment price cap (assuming well-formed unique enrollment ids),
while PUT /payments/:id does not re-validate and can break it, as the
counterexample shows; the invariant is enforced at creation only. -/
theorem C5_post_preserves_cap (db : DB) (req : PaymentReq) (newId : Nat)
    (wf : (db.enrollments.map Enrollment.id).Nodup)
    (inv : db.paymentInvariant = true) :
    ((postPayment db req newId).2).paymentInvariant = true := by
  match hread : postPaymentRead db req with
  | .error s =>
    simpa [postPayment, hread] using inv
  | .ok (tp, price) =>
    obtain ⟨enr, henr, c, hc, htp, hprice, hle⟩ :=
      postPaymentRead_ok_facts db req tp price hread
    subst htp
    subst hprice
    simp only [postPayment, hread]
    unfold DB.paymentInvariant at inv ⊢
    simp only [postPaymentWrite_findCourse]
    have key : ∀ e ∈ db.enrollments,
        (fun e => match db.findCourse e.courseId with
          | none => true
          | some ce => decide (totalPaidOf
              ((postPaymentWrite db req
                (totalPaidOf (db.paymentsOfEnrollment req.enrollmentId)) c.price
                newId).paymentsOfEnrollment e.id) ≤ ce.price)) e = true := by
      intro e he
      by_cases hid : e.id = req.enrollmentId
      · have henrL : db.enrollments.find? (fun e => e.id == req.enrollmentId) =
            some enr := henr
        have henrmem : enr ∈ db.enrollments := List.mem_of_find?_eq_some henrL
        have henrid := List.find?_some henrL
        have heid : enr.id = req.enrollmentId := by simpa using henrid
        have hee : e = enr := List.inj_on_of_nodup_map wf he henrmem
          (by rw [hid, heid])
        subst hee
        simp only [hc]
        rw [hid, paymentsOfEnrollment_postPaymentWrite, totalPaidOf_append,
          totalPaidOf_single]
        exact decide_eq_true hle
      · have hinv := List.all_eq_true.mp inv e he
        simp only at hinv ⊢
        rw [paymentsOfEnrollment_postPaymentWrite_ne db req _ c.price newId e.id hid]
        exact hinv
    have hmapped : ∀ (f : Enrollment → Enrollment),
        (∀ e, (f e).id = e.id ∧ (f e).courseId = e.courseId) →
        ∀ (p : Enrollment → Bool), (∀ e, p (f e) = p e) →
        (db.enrollments.map f).all p = db.enrollments.all p := by
      intro f hf p hp
      rw [List.all_map, show (p ∘ f) = p from funext hp]
    unfold postPaymentWrite
    split
    · rw [hmapped]
      · exact List.all_eq_true.mpr (by
          intro e he
          have := key e he
          simpa [postPaymentWrite, *] using this)
      · intro e
        by_cases h : (e.id == req.enrollmentId) = true <;> simp [h]
      · intro e
        by_cases h : (e.id == req.enrollmentId) = true <;> simp [h]
    · exact List.all_eq_true.mpr (by
        intro e he
        have := key e he
        simpa [postPaymentWrite, *] using this)

/-- C5 witness: on the price-1000 state with 400 already paid, accepting the
600 payment through POST keeps the cap invariant. -/
theorem C5_post_preserves_cap_witness :
    ((postPayment dbPaid reqSecond 3).2).paymentInvariant = true :=
  C5_post_preserves_cap dbPaid reqSecond 3 (by decide)
    (by norm_num [DB.paymentInvariant, dbPaid, DB.findCourse,
      DB.paymentsOfEnrollment, totalPaidOf, List.all, List.find?, List.filter,
      List.foldl])

/-- C8: DELETE /courses/:id answers 400 and leaves the state unchanged when
an enrollment references the course, DELETE /enrollments/:id answers 400
and leaves the state unchanged when a payment references the enrollment,
and a successful deletion implies nothing referenced the deleted row, so
these deletions never leave dangling references. -/
theorem C8_delete_referential_guards (db : DB) (cid eid : Nat) :
    ((∃ e ∈ db.enrollments, e.courseId = cid) → deleteCourse db cid = (400, db)) ∧
    ((∃ p ∈ db.payments, p.enrollmentId = eid) →
      deleteEnrollment db eid = (400, db)) ∧
    ((deleteCourse db cid).1 = 200 →
      ∀ e ∈ (deleteCourse db cid).2.enrollments, e.courseId ≠ cid) ∧
    ((deleteEnrollment db eid).1 = 200 →
      ∀ p ∈ (deleteEnrollment db eid).2.payments, p.enrollmentId ≠ eid) := by
  refine ⟨?_, ?_, ?_, ?_⟩
  · rintro ⟨e, he, hec⟩
    have hmem : e ∈ db.enrollments.filter (fun x => x.courseId == cid) :=
      List.mem_filter.mpr ⟨he, by simp [hec]⟩
    have hlen : (db.enrollments.filter (fun x => x.courseId == cid)).length > 0 :=
      List.length_pos.mpr (List.ne_nil_of_mem hmem)
    simp only [deleteCourse]
    rw [if_pos hlen]
  · rintro ⟨p, hp, hpe⟩
    have hmem : p ∈ db.payments.filter (fun x => x.enrollmentId == eid) :=
      List.mem_filter.mpr ⟨hp, by simp [hpe]⟩
    have hlen : (db.payments.filter (fun x => x.enrollmentId == eid)).length > 0 :=
      List.length_pos.mpr (List.ne_nil_of_mem hmem)
    simp only [deleteEnrollment]
    rw [if_pos hlen]
  · intro h200 e he
    by_cases hlen : (db.enrollments.filter (fun x => x.courseId == cid)).length > 0
    · have hdel : deleteCourse db cid = (400, db) := by
        simp only [deleteCourse]
        rw [if_pos hlen]
      rw [hdel] at h200
      simp at h200
    · have hnil : db.enrollments.filter (fun x => x.courseId == cid) = [] :=
        List.length_eq_zero.mp (Nat.eq_zero_of_not_pos hlen)
      have hall := List.filter_eq_nil_iff.mp hnil
      have hmemdb : e ∈ db.enrollments := by
        simp only [deleteCourse] at he
        rw [if_neg hlen] at he
        split at he <;> simpa using he
      intro hec
      exact hall e hmemdb (by simp [hec])
  · intro h200 p hp
    by_cases hlen : (db.payments.filter (fun x => x.enrollmentId == eid)).length > 0
    · have hdel : deleteEnrollment db eid = (400, db) := by
        simp only [deleteEnrollment]
        rw [if_pos hlen]
      rw [hdel] at h200
      simp at h200
    · have hnil : db.payments.filter (fun x => x.enrollmentId == eid) = [] :=
        List.length_eq_zero.mp (Nat.eq_zero_of_not_pos hlen)
      have hall := List.filter_eq_nil_iff.mp hnil
      have hmemdb : p ∈ db.payments := by
        simp only [deleteEnrollment] at hp
        rw [if_neg hlen] at hp
        split at hp <;> simpa using hp
      intro hpe
      exact hall p hmemdb (by simp [hpe])

/-- C8 witness: on the populated state, deleting course 1 (referenced by an
enrollment) and enrollment 1 (referenced by a payment) both answer 400 and
change nothing. -/
theorem C8_delete_referential_guards_witness :
    deleteCourse dbPaid 1 = (400, dbPaid) ∧
    deleteEnrollment dbPaid 1 = (400, dbPaid) :=
  ⟨(C8_delete_referential_guards dbPaid 1 1).1 (by decide),
   (C8_delete_referential_guards dbPaid 1 1).2.1 (by decide)⟩

/-- Student part of the POST /students/full-create payload; JS falsy checks
on the four required fields are modelled by string emptiness. -/
structure FCStudent where
  name : String
  email : String
  phone : String
  nricPassportId : String
deriving DecidableEq, Repr

/-- Optional enrollment part of the full-create payload (present when
enrollment.courseId is truthy). -/
structure FCEnrollment where
  courseId : Nat
  status : Option EnrollmentStatus
deriving DecidableEq, Repr

/-- Optional payment part of the full-create payload (present when amount,
method and date are all truthy); amount is none when the string the client
sent is not a valid Prisma.Decimal. -/
structure FCPayment where
  amount : Option Rat
  method : PaymentMethod
  applyToEnrollment : Bool
  enrollmentId : Option Nat
deriving DecidableEq, Repr

/-- Full-create request body. -/
structure FCReq where
  student : FCStudent
  enrollment : Option FCEnrollment
  payment : Option FCPayment
deriving DecidableEq, Repr

/-- Transaction body of POST /students/full-create (students router,
prisma.$transaction callback): NRIC/Passport uniqueness check, student
creation (unique-email constraint), optional enrollment creation (foreign
key on courseId), optional payment creation (Decimal parse and foreign key
on the resolved enrollmentId).  Any error aborts the whole transaction. -/
def fullCreateTx (db : DB) (s : FCStudent) (enrollment : Option FCEnrollment)
    (payment : Option FCPayment) (sid eid pid : Nat) : Except String DB :=
  if db.students.any (fun st => st.nricPassportId == some s.nricPassportId) then
    Except.error "NRIC-Passport ID already exists"
  else if db.students.any (fun st => st.email == s.email) then
    Except.error "P2002 email"
  else
    let db1 : DB := { db with students := db.students ++
      [{ id := sid, name := s.name, email := s.email, phone := s.phone,
         nricPassportId := some s.nricPassportId }] }
    let enrStep : Except String (DB × Option Nat) :=
      match enrollment with
      | none => Except.ok (db1, none)
      | some e =>
        match db1.findCourse e.courseId with
        | none => Except.error "P2003 enrollment.courseId"
        | some _ => Except.ok
            ({ db1 with enrollments := db1.enrollments ++
               [{ id := eid, studentId := sid, courseId := e.courseId,
                  status := e.status.getD .ACTIVE }] }, some eid)
    match enrStep with
    | Except.error msg => Except.error msg
    | Except.ok (db2, createdEnr) =>
      match payment with
      | none => Except.ok db2
      | some p =>
        let target : Option Nat :=
          if p.applyToEnrollment then createdEnr else p.enrollmentId
        let finalTarget : Option Nat :=
          match target with
          | some t => some t
          | none => if createdEnr.isSome then createdEnr else p.enrollmentId
        match p.amount with
        | none => Except.error "Invalid Decimal"
        | some amt =>
          match finalTarget with
          | none => Except.error "P2011 payment.enrollmentId null"
          | some t =>
            match db2.findEnrollment t with
            | none => Except.error "P2003 payment.enrollmentId"
            | some _ => Except.ok
                { db2 with payments := db2.payments ++
                  [{ id := pid, studentId := sid, enrollmentId := t,
                     amount := amt, method := p.method }] }

/-- POST /students/full-create handler: required-field precheck, then the
transaction; a transaction error rolls every write back and answers 400. -/
def fullCreate (db : DB) (req : FCReq) (sid eid pid : Nat) : Nat × DB :=
  if req.student.name.isEmpty || req.student.email.isEmpty ||
     req.student.phone.isEmpty || req.student.nricPassportId.isEmpty then
    (400, db)
  else
    match fullCreateTx db req.student req.enrollment req.payment sid eid pid with
    | Except.error _ => (400, db)
    | Except.ok db2 => (201, db2)

theorem fullCreate_cases (db : DB) (req : FCReq) (sid eid pid : Nat) :
    (fullCreate db req sid eid pid).1 = 201 ∨
    fullCreate db req sid eid pid = (400, db) := by
  unfold fullCreate
  split
  · right
    rfl
  · split
    · right
      rfl
    · left
      rfl

/-- C4: the composite full-create endpoint is all-or-nothing: whenever the
response is not 201 (precheck failure, duplicate national ID, duplicate
email, missing course, invalid amount, or unresolvable payment target),
the database is exactly the initial one, so no student, enrollment or
payment row persists. -/
theorem C4_full_create_atomic (db : DB) (req : FCReq) (sid eid pid : Nat)
    (h : (fullCreate db req sid eid pid).1 ≠ 201) :
    (fullCreate db req sid eid pid).2 = db := by
  rcases fullCreate_cases db req sid eid pid with h1 | h1
  · exact absurd h1 h
  · rw [h1]

/-- C4 witness: national ID already taken, so the whole composite creation
fails and the state is unchanged even though a student payload, an
enrollment payload and a payment payload were all supplied. -/
def dbNric : DB :=
  { students := [{ id := 1, name := "Dana", email := "dana@example.com",
                   phone := "0123456789", nricPassportId := some "A123" }]
    courses := [{ id := 1, name := "Marketing", price := 500, isActive := true }]
    enrollments := []
    payments := [] }

def reqNric : FCReq :=
  { student := { name := "Eve", email := "eve@example.com",
                 phone := "0123456780", nricPassportId := "A123" }
    enrollment := some { courseId := 1, status := none }
    payment := some { amount := some 100, method := .CASH,
                      applyToEnrollment := true, enrollmentId := none } }

theorem C4_full_create_atomic_witness :
    (fullCreate dbNric reqNric 2 1 1).2 = dbNric :=
  C4_full_create_atomic dbNric reqNric 2 1 1 (by decide)

/-- Minimal JSON value model for response bodies. -/
inductive JVal where
  | jnum (q : Rat)
  | jstr (s : String)
  | jarr (items : List JVal)
  | jobj (fields : List (String × JVal))

/-- Key lookup in a JSON object value. -/
def JVal.lookupKey : JVal → String → Option JVal
  | .jobj fields, k => (fields.find? (fun f => f.1 == k)).map (fun f => f.2)
  | _, _ => none

/-- Math.ceil(total / limit) as every list route computes the pages field
(JS number division of the row count by the parsed page size). -/
def pagesOf (total limit : Nat) : Nat := ⌈(total : Rat) / (limit : Rat)⌉₊

/-- Pagination object shared by the list endpoints:
{page, limit, total, pages: Math.ceil(total/limit)}. -/
def paginationJson (page limit total : Nat) : JVal :=
  .jobj [("page", .jnum page), ("limit", .jnum limit), ("total", .jnum total),
         ("pages", .jnum (pagesOf total limit))]

/-- GET /payments list response body (payments.js res.json). -/
def paymentsListResponse (rows : List JVal) (page limit total : Nat) : JVal :=
  .jobj [("payments", .jarr rows), ("pagination", paginationJson page limit total)]

/-- GET /students list response body (students router res.json). -/
def studentsListResponse (rows : List JVal) (page limit total : Nat) : JVal :=
  .jobj [("students", .jarr rows), ("pagination", paginationJson page limit total)]

/-- GET /courses list response body (courses router res.json). -/
def coursesListResponse (rows : List JVal) (page limit total : Nat) : JVal :=
  .jobj [("courses", .jarr rows), ("pagination", paginationJson page limit total)]

/-- GET /enrollments list response body (enrollments.js res.json). -/
def enrollmentsListResponse (rows : List JVal) (page limit total : Nat) : JVal :=
  .jobj [("enrollments", .jarr rows),
         ("pagination", paginationJson page limit total)]

/-- C6 counterexample: no list endpoint returns a field literally named
data; the GET /payments body keys its rows as payments (and likewise for
students, courses and enrollments), refuting the claimed
{data, pagination} shape. -/
theorem C6_data_key_counterexample :
    (paymentsListResponse [] 1 20 0).lookupKey "data" = none ∧
    (paymentsListResponse [] 1 20 0).lookupKey "payments" = some (.jarr []) ∧
    (studentsListResponse [] 1 20 0).lookupKey "data" = none ∧
    (coursesListResponse [] 1 20 0).lookupKey "data" = none ∧
    (enrollmentsListResponse [] 1 20 0).lookupKey "data" = none :=
  ⟨rfl, rfl, rfl, rfl, rfl⟩

/-- C6 as amended: each list endpoint returns
{<entityKey>, pagination:{page,limit,total,pages}} where the list key is
the entity plural (payments, students, courses, enrollments) rather than
data, and pages = Math.ceil(total/limit) equals the ceiling division
(total + limit - 1) / limit whenever limit ≥ 1. -/
theorem C6_pagination_shape (rows : List JVal) (page limit total : Nat)
    (h : 1 ≤ limit) :
    (paymentsListResponse rows page limit total).lookupKey "payments" =
      some (.jarr rows) ∧
    (paymentsListResponse rows page limit total).lookupKey "pagination" =
      some (paginationJson page limit total) ∧
    (studentsListResponse rows page limit total).lookupKey "students" =
      some (.jarr rows) ∧
    (studentsListResponse rows page limit total).lookupKey "pagination" =
      some (paginationJson page limit total) ∧
    (coursesListResponse rows page limit total).lookupKey "courses" =
      some (.jarr rows) ∧
    (coursesListResponse rows page limit total).lookupKey "pagination" =
      some (paginationJson page limit total) ∧
    (enrollmentsListResponse rows page limit total).lookupKey "enrollments" =
      some (.jarr rows) ∧
    (enrollmentsListResponse rows page limit total).lookupKey "pagination" =
      some (paginationJson page limit total) ∧
    (paginationJson page limit total).lookupKey "pages" =
      some (.jnum (pagesOf total limit)) ∧
    pagesOf total limit = (total + limit - 1) / limit := by
  refine ⟨rfl, rfl, rfl, rfl, rfl, rfl, rfl, rfl, rfl, ?_⟩
  unfold pagesOf
  have hl : (0 : Rat) < (limit : Rat) := by exact_mod_cast h
  have hdiv : ∀ n : Nat, ((total + limit - 1) / limit ≤ n ↔ total ≤ limit * n) := by
    intro n
    rw [Nat.div_le_iff_le_mul_add_pred (by omega : 0 < limit)]
    omega
  have hceil : ∀ n : Nat,
      (⌈(total : Rat) / (limit : Rat)⌉₊ ≤ n ↔ total ≤ limit * n) := by
    intro n
    rw [Nat.ceil_le, div_le_iff₀ hl, mul_comm]
    exact_mod_cast Iff.rfl
  exact le_antisymm ((hceil _).mpr ((hdiv _).mp le_rfl))
    ((hdiv _).mpr ((hceil _).mp le_rfl))

/-- C6 witness: 45 rows at 20 per page paginate into ceil(45/20) pages,
computed by the ceiling division (45 + 20 - 1) / 20. -/
theorem C6_pagination_shape_witness :
    pagesOf 45 20 = (45 + 20 - 1) / 20 :=
  (C6_pagination_shape [] 1 20 45 (by decide)).2.2.2.2.2.2.2.2.2

/-- Raw CSV row as the csv-parser stream delivers it to the data handler;
a JS-falsy field (absent column or empty string) is none or the empty
string. -/
structure CsvRow where
  name : Option String
  email : Option String
  phone : Option String
  course : Option String
  batch : Option String
  startDate : Option String
  notes : Option String
deriving DecidableEq, Repr

/-- JS falsiness of an optional string field (undefined or empty). -/
def jsMissing : Option String → Bool
  | none => true
  | some s => s.isEmpty

/-- Executable model of JS String.prototype.trim: drop whitespace from
both ends (the library trim is used through this reducible equivalent). -/
def jsTrim (s : String) : String :=
  ⟨((s.data.dropWhile Char.isWhitespace).reverse.dropWhile
      Char.isWhitespace).reverse⟩

/-- Executable model of JS String.prototype.toLowerCase. -/
def jsToLower (s : String) : String := ⟨s.data.map Char.toLower⟩

/-- Executable model of the JS includes check for a single character. -/
def jsIncludesChar (s : String) (c : Char) : Bool := s.data.contains c

/-- Cleaned row produced by parseCSV for a valid line. -/
structure CleanedRow where
  name : String
  email : String
  phone : String
  course : Option String
  batch : Option String
  startDate : Option String
  notes : Option String
deriving DecidableEq, Repr

/-- Per-row error entry of parseCSV. -/
structure RowError where
  row : Nat
  error : String
deriving DecidableEq, Repr

/-- One step of the parseCSV data handler (upload router): required-field
check, trimming and lowercasing, then the name-length, email-format and
phone-length checks; a failing row is appended to errors (numbered by the
source as results.length + 1), a passing row to results. -/
def parseCSVStep (acc : List CleanedRow × List RowError) (data : CsvRow) :
    List CleanedRow × List RowError :=
  let results := acc.1
  let errors := acc.2
  if jsMissing data.name || jsMissing data.email || jsMissing data.phone then
    (results, errors ++
      [{ row := results.length + 1,
         error := "Missing required fields (name, email, phone)" }])
  else
    let cleaned : CleanedRow :=
      { name := jsTrim (data.name.getD "")
        email := jsToLower (jsTrim (data.email.getD ""))
        phone := jsTrim (data.phone.getD "")
        course := data.course.map jsTrim
        batch := data.batch.map jsTrim
        startDate := data.startDate.map jsTrim
        notes := data.notes.map jsTrim }
    if cleaned.name.length < 2 then
      (results, errors ++
        [{ row := results.length + 1,
           error := "Name must be at least 2 characters" }])
    else if !(jsIncludesChar cleaned.email (Char.ofNat 64)) then
      (results, errors ++
        [{ row := results.length + 1, error := "Invalid email format" }])
    else if cleaned.phone.length < 10 then
      (results, errors ++
        [{ row := results.length + 1, error := "Phone number too short" }])
    else (results ++ [cleaned], errors)

/-- parseCSV: fold of the data handler over the parsed rows in order. -/
def parseCSV (rows : List CsvRow) : List CleanedRow × List RowError :=
  rows.foldl parseCSVStep ([], [])

/-- Response body of POST /upload/csv-preview. -/
structure CsvPreviewResponse where
  totalRows : Nat
  validRows : Nat
  errorRows : Nat
  preview : List CleanedRow
  errorsShown : List RowError
  sampleData : Option CleanedRow
deriving DecidableEq, Repr

/-- POST /upload/csv-preview handler: parse, report counts and first-10
samples, delete the temp file; it performs no database write, so the state
passes through unchanged. -/
def csvPreview (db : DB) (rows : List CsvRow) : CsvPreviewResponse × DB :=
  let parsed := parseCSV rows
  ({ totalRows := parsed.1.length + parsed.2.length
     validRows := parsed.1.length
     errorRows := parsed.2.length
     preview := parsed.1.take 10
     errorsShown := parsed.2.take 10
     sampleData := parsed.1.head? }, db)

def emptyDb : DB := { students := [], courses := [], enrollments := [], payments := [] }

def rowValid : CsvRow :=
  { name := some "John Doe", email := some "john@example.com",
    phone := some "1234567890", course := none, batch := none,
    startDate := none, notes := none }

def rowNoEmail : CsvRow :=
  { name := some "Jane Smith", email := none, phone := some "0987654321",
    course := none, batch := none, startDate := none, notes := none }

/-- C7: previewing a CSV with one fully valid row and one row missing the
email reports validRows = 1 and errorRows = 1 (totalRows = 2) and persists
nothing: the database state is returned unchanged. -/
theorem C7_csv_preview_counts :
    (csvPreview emptyDb [rowValid, rowNoEmail]).1.validRows = 1 ∧
    (csvPreview emptyDb [rowValid, rowNoEmail]).1.errorRows = 1 ∧
    (csvPreview emptyDb [rowValid, rowNoEmail]).1.totalRows = 2 ∧
    (csvPreview emptyDb [rowValid, rowNoEmail]).2 = emptyDb := by
  refine ⟨?_, ?_, ?_, rfl⟩ <;> decide
